import Mathlib

/-!
Formal model of the session-scoped feedback workflow of src/app.py.

The Streamlit script keeps four session-state entries for the feedback
state machine: current_cluster_id, feedback_choice,
feedback_comment_submitted and feedback_textarea.  The script literals
"pasuje" and "nie_pasuje" are the matches and does_not_match choices of
the specification.  Python None and a missing key are both modelled as
Option.none: the script normalises a missing feedback_choice to None
before any read (src/app.py lines 112-113), reads
feedback_comment_submitted with a false default (line 133), and reads
feedback_textarea with an empty-string default (line 42).  Python
str.strip is modelled by the strip function below, which removes
leading and trailing whitespace characters.
-/

/-- Python str.strip with no argument: remove the leading and trailing
whitespace characters of the string. -/
def strip (s : String) : String :=
  String.mk (((s.data.dropWhile Char.isWhitespace).reverse.dropWhile Char.isWhitespace).reverse)

/-- The session-scoped mutable state of the feedback workflow:
the four st.session_state entries the script reads and writes. -/
structure SessionState where
  current_cluster_id : Option String
  feedback_choice : Option String
  feedback_comment_submitted : Bool
  feedback_textarea : Option String
deriving DecidableEq

/-- A fresh Streamlit session: no session-state key is set yet. -/
def initialState : SessionState :=
  { current_cluster_id := none,
    feedback_choice := none,
    feedback_comment_submitted := false,
    feedback_textarea := none }

/-- One point of the user_feedback qdrant collection, as built by
add_note_to_db (src/app.py lines 47-51): a caller-assigned integer id,
the constant one-dimensional vector containing the float literal 0.0
(represented here by the rational number 0, which is exact since no
floating-point arithmetic is ever performed on it), and the payload,
a key-value record holding the comment under the key "text". -/
structure PointStruct where
  id : Nat
  vector : List Rat
  payload : List (String × String)
deriving DecidableEq

/-- The external note store: the qdrant collection is modelled as the
list of points upserted so far.  client.count with exact counting
(src/app.py line 46) returns the number of stored points. -/
def qdrant_count (db : List PointStruct) : Nat := db.length

/-- src/app.py lines 41-52, add_note_to_db: read the textarea entry with
an empty default and strip it; if the result is empty return without
touching the store; otherwise read count and upsert one point with
id = count + 1, vector [0.0] and payload mapping "text" to the stripped
comment. -/
def add_note_to_db (s : SessionState) (db : List PointStruct) : List PointStruct :=
  let feedback_comment := strip (s.feedback_textarea.getD "")
  if feedback_comment = "" then db
  else db ++ [{ id := qdrant_count db + 1,
                vector := [0],
                payload := [("text", feedback_comment)] }]

/-- src/app.py lines 68-76, reset_feedback_on_cluster_change: on the
very first assignment (no current_cluster_id key) only record the
cluster; on a changed assignment record the cluster, set
feedback_choice to None, feedback_comment_submitted to False and delete
the feedback_textarea key; on an unchanged assignment do nothing. -/
def reset_feedback_on_cluster_change (new_cluster_id : String) (s : SessionState) : SessionState :=
  if s.current_cluster_id = none then
    { s with current_cluster_id := some new_cluster_id }
  else if s.current_cluster_id ≠ some new_cluster_id then
    { current_cluster_id := some new_cluster_id,
      feedback_choice := none,
      feedback_comment_submitted := false,
      feedback_textarea := none }
  else s

/-- src/app.py lines 116-120: the matches button is rendered only while
feedback_choice is None; clicking it sets feedback_choice to "pasuje". -/
def select_matches (s : SessionState) : SessionState :=
  if s.feedback_choice = none then { s with feedback_choice := some "pasuje" }
  else s

/-- src/app.py lines 121-124: the does-not-match button is rendered only
while feedback_choice is None; clicking it sets feedback_choice to
"nie_pasuje". -/
def select_not_matches (s : SessionState) : SessionState :=
  if s.feedback_choice = none then { s with feedback_choice := some "nie_pasuje" }
  else s

/-- src/app.py lines 135-139: the textarea widget with key
feedback_textarea is rendered only in the branch where feedback_choice
is "nie_pasuje" and feedback_comment_submitted is false; editing it
stores the typed text under that session-state key. -/
def type_comment (text : String) (s : SessionState) : SessionState :=
  if s.feedback_choice = some "nie_pasuje" ∧ s.feedback_comment_submitted = false then
    { s with feedback_textarea := some text }
  else s

/-- Streamlit framework behaviour at the end of a rerun: the
session-state entry of a widget key is removed when the rerun does not
render that widget.  The feedback textarea (src/app.py lines 135-139) is
rendered exactly while feedback_choice is "nie_pasuje" and
feedback_comment_submitted is false, so its key survives a rerun only in
that branch. -/
def widget_cleanup (s : SessionState) : SessionState :=
  if s.feedback_choice = some "nie_pasuje" ∧ s.feedback_comment_submitted = false then s
  else { s with feedback_textarea := none }

/-- src/app.py lines 140-146: the submit button exists only in the
branch with feedback_choice = "nie_pasuje" and
feedback_comment_submitted false.  If the stripped textarea content is
non-empty the handler calls add_note_to_db, sets
feedback_comment_submitted to True and reruns (after which the textarea
widget is no longer rendered, so its key is cleaned up); otherwise it
only shows a validation warning. -/
def submit_feedback (s : SessionState) (db : List PointStruct) :
    SessionState × List PointStruct :=
  if s.feedback_choice = some "nie_pasuje" ∧ s.feedback_comment_submitted = false then
    if strip (s.feedback_textarea.getD "") ≠ "" then
      (widget_cleanup { s with feedback_comment_submitted := true },
       add_note_to_db s db)
    else (s, db)
  else (s, db)

/-- src/app.py lines 150-156: the reset button is rendered only while
feedback_choice is not None; clicking it sets feedback_choice to None,
feedback_comment_submitted to False and deletes the feedback_textarea
key, leaving current_cluster_id untouched. -/
def reset_click (s : SessionState) : SessionState :=
  if s.feedback_choice ≠ none then
    { s with feedback_choice := none,
             feedback_comment_submitted := false,
             feedback_textarea := none }
  else s

/-- The events that can mutate the session state: a new cluster
assignment arriving at the top of a script run, the two choice buttons,
editing the comment textarea, the submit button, and the reset button. -/
inductive Event where
  | assign (cluster_id : String)
  | selectMatches
  | selectNotMatches
  | typeComment (text : String)
  | submit
  | reset

/-- One interaction cycle: the event handler runs on the current session
state and note store. -/
def step (e : Event) (cfg : SessionState × List PointStruct) :
    SessionState × List PointStruct :=
  match e with
  | .assign c => (reset_feedback_on_cluster_change c cfg.1, cfg.2)
  | .selectMatches => (select_matches cfg.1, cfg.2)
  | .selectNotMatches => (select_not_matches cfg.1, cfg.2)
  | .typeComment t => (type_comment t cfg.1, cfg.2)
  | .submit => submit_feedback cfg.1 cfg.2
  | .reset => (reset_click cfg.1, cfg.2)

/-- Configurations reachable from a fresh session and an arbitrary-free
empty note store by any sequence of events. -/
inductive Reachable : SessionState × List PointStruct → Prop where
  | init : Reachable (initialState, [])
  | next (e : Event) (cfg : SessionState × List PointStruct) :
      Reachable cfg → Reachable (step e cfg)

/-- C1: in a session state whose current_cluster_id is present and whose
feedback_choice is not absent, the new-cluster-assignment transition
with an identifier different from current_cluster_id yields a state with
current_cluster_id set to the new identifier, feedback_choice absent,
feedback_comment_submitted false, and the transient comment text
cleared. -/
theorem change_resets (s : SessionState) (c c2 : String)
    (hcur : s.current_cluster_id = some c)
    (hch : s.feedback_choice ≠ none)
    (hne : c2 ≠ c) :
    (reset_feedback_on_cluster_change c2 s).current_cluster_id = some c2 ∧
    (reset_feedback_on_cluster_change c2 s).feedback_choice = none ∧
    (reset_feedback_on_cluster_change c2 s).feedback_comment_submitted = false ∧
    (reset_feedback_on_cluster_change c2 s).feedback_textarea = none := by
  have hne2 : c ≠ c2 := Ne.symm hne
  simp [reset_feedback_on_cluster_change, hcur, hne2]

theorem change_resets_witness :
    (reset_feedback_on_cluster_change "B"
      { current_cluster_id := some "A", feedback_choice := some "pasuje",
        feedback_comment_submitted := false,
        feedback_textarea := some "x" }).current_cluster_id = some "B" ∧
    (reset_feedback_on_cluster_change "B"
      { current_cluster_id := some "A", feedback_choice := some "pasuje",
        feedback_comment_submitted := false,
        feedback_textarea := some "x" }).feedback_choice = none ∧
    (reset_feedback_on_cluster_change "B"
      { current_cluster_id := some "A", feedback_choice := some "pasuje",
        feedback_comment_submitted := false,
        feedback_textarea := some "x" }).feedback_comment_submitted = false ∧
    (reset_feedback_on_cluster_change "B"
      { current_cluster_id := some "A", feedback_choice := some "pasuje",
        feedback_comment_submitted := false,
        feedback_textarea := some "x" }).feedback_textarea = none :=
  change_resets _ "A" "B" rfl (by simp) (by decide)

/-- C2: on a session state whose current_cluster_id is absent and whose
feedback_choice is absent and feedback_comment_submitted is false, the
new-cluster-assignment transition with any identifier only records that
identifier: feedback_choice stays absent, feedback_comment_submitted
stays false, and the transient comment text is untouched. -/
theorem first_assignment_no_reset (s : SessionState) (c : String)
    (hcur : s.current_cluster_id = none)
    (hch : s.feedback_choice = none)
    (hsub : s.feedback_comment_submitted = false) :
    (reset_feedback_on_cluster_change c s).current_cluster_id = some c ∧
    (reset_feedback_on_cluster_change c s).feedback_choice = none ∧
    (reset_feedback_on_cluster_change c s).feedback_comment_submitted = false ∧
    (reset_feedback_on_cluster_change c s).feedback_textarea = s.feedback_textarea := by
  simp [reset_feedback_on_cluster_change, hcur, hch, hsub]

theorem first_assignment_no_reset_witness :
    (reset_feedback_on_cluster_change "A" initialState).current_cluster_id = some "A" ∧
    (reset_feedback_on_cluster_change "A" initialState).feedback_choice = none ∧
    (reset_feedback_on_cluster_change "A" initialState).feedback_comment_submitted = false ∧
    (reset_feedback_on_cluster_change "A" initialState).feedback_textarea
      = initialState.feedback_textarea :=
  first_assignment_no_reset initialState "A" rfl rfl rfl

/-- C7: on every session state whose feedback_choice is not absent, the
explicit reset event sets feedback_choice to absent, sets
feedback_comment_submitted to false, discards the transient comment
text, and leaves current_cluster_id unchanged. -/
theorem reset_clears_feedback (s : SessionState)
    (hch : s.feedback_choice ≠ none) :
    (reset_click s).feedback_choice = none ∧
    (reset_click s).feedback_comment_submitted = false ∧
    (reset_click s).feedback_textarea = none ∧
    (reset_click s).current_cluster_id = s.current_cluster_id := by
  simp [reset_click, hch]

theorem reset_clears_feedback_witness :
    (reset_click
      { current_cluster_id := some "A", feedback_choice := some "pasuje",
        feedback_comment_submitted := false,
        feedback_textarea := none }).feedback_choice = none ∧
    (reset_click
      { current_cluster_id := some "A", feedback_choice := some "pasuje",
        feedback_comment_submitted := false,
        feedback_textarea := none }).feedback_comment_submitted = false ∧
    (reset_click
      { current_cluster_id := some "A", feedback_choice := some "pasuje",
        feedback_comment_submitted := false,
        feedback_textarea := none }).feedback_textarea = none ∧
    (reset_click
      { current_cluster_id := some "A", feedback_choice := some "pasuje",
        feedback_comment_submitted := false,
        feedback_textarea := none }).current_cluster_id
      = ({ current_cluster_id := some "A", feedback_choice := some "pasuje",
           feedback_comment_submitted := false,
           feedback_textarea := none } : SessionState).current_cluster_id :=
  reset_clears_feedback _ (by simp)

/-- C8: applying the new-cluster-assignment transition with the same
identifier already held in current_cluster_id leaves the whole session
state unchanged; in particular feedback_choice,
feedback_comment_submitted and the transient comment text are
unchanged. -/
theorem same_cluster_noop (s : SessionState) (c : String)
    (hcur : s.current_cluster_id = some c) :
    reset_feedback_on_cluster_change c s = s := by
  simp [reset_feedback_on_cluster_change, hcur]

theorem same_cluster_noop_witness :
    reset_feedback_on_cluster_change "A"
      { current_cluster_id := some "A", feedback_choice := some "nie_pasuje",
        feedback_comment_submitted := true,
        feedback_textarea := some "t" }
    = { current_cluster_id := some "A", feedback_choice := some "nie_pasuje",
        feedback_comment_submitted := true,
        feedback_textarea := some "t" } :=
  same_cluster_noop _ "A" rfl

/-- C4: a comment-submission event in a state with feedback_choice
"nie_pasuje" (the does-not-match choice), feedback_comment_submitted
false and non-empty stripped comment text appends to the note store
exactly one point whose id is the current count plus one, and sets
feedback_comment_submitted to true. -/
theorem submit_persists_once (s : SessionState) (db : List PointStruct)
    (hch : s.feedback_choice = some "nie_pasuje")
    (hsub : s.feedback_comment_submitted = false)
    (htext : strip (s.feedback_textarea.getD "") ≠ "") :
    (submit_feedback s db).2
      = db ++ [{ id := qdrant_count db + 1,
                 vector := [0],
                 payload := [("text", strip (s.feedback_textarea.getD ""))] }] ∧
    (submit_feedback s db).1.feedback_comment_submitted = true := by
  simp [submit_feedback, add_note_to_db, widget_cleanup, hch, hsub, htext]

theorem submit_persists_once_witness :
    (submit_feedback
      { current_cluster_id := some "A", feedback_choice := some "nie_pasuje",
        feedback_comment_submitted := false,
        feedback_textarea := some " too vague " } []).2
      = [] ++ [{ id := qdrant_count [] + 1,
                 vector := [0],
                 payload := [("text", strip ((some " too vague " : Option String).getD ""))] }] ∧
    (submit_feedback
      { current_cluster_id := some "A", feedback_choice := some "nie_pasuje",
        feedback_comment_submitted := false,
        feedback_textarea := some " too vague " } []).1.feedback_comment_submitted = true :=
  submit_persists_once _ [] rfl rfl (by decide)

/-- C5: a comment-submission event whose comment text strips to the
empty string changes nothing: the session state and the note store come
back exactly as they were, and add_note_to_db itself would also leave
the store untouched on such text, so no append ever happens. -/
theorem empty_comment_rejected (s : SessionState) (db : List PointStruct)
    (htext : strip (s.feedback_textarea.getD "") = "") :
    submit_feedback s db = (s, db) ∧ add_note_to_db s db = db := by
  constructor
  · simp [submit_feedback, htext]
  · simp [add_note_to_db, htext]

theorem empty_comment_rejected_witness :
    submit_feedback
      { current_cluster_id := some "A", feedback_choice := some "nie_pasuje",
        feedback_comment_submitted := false,
        feedback_textarea := some "   " } []
      = ({ current_cluster_id := some "A", feedback_choice := some "nie_pasuje",
           feedback_comment_submitted := false,
           feedback_textarea := some "   " }, []) ∧
    add_note_to_db
      { current_cluster_id := some "A", feedback_choice := some "nie_pasuje",
        feedback_comment_submitted := false,
        feedback_textarea := some "   " } [] = [] :=
  empty_comment_rejected _ [] (by decide)

/-- C6: a comment-submission event in a state whose feedback_choice is
not "nie_pasuje" (the does-not-match choice) or whose
feedback_comment_submitted is already true is a no-op: session state and
note store are returned unchanged. -/
theorem submit_guard_noop (s : SessionState) (db : List PointStruct)
    (h : s.feedback_choice ≠ some "nie_pasuje" ∨ s.feedback_comment_submitted = true) :
    submit_feedback s db = (s, db) := by
  rcases h with h | h
  · simp [submit_feedback, h]
  · simp [submit_feedback, h]

theorem submit_guard_noop_witness :
    submit_feedback
      { current_cluster_id := some "A", feedback_choice := some "nie_pasuje",
        feedback_comment_submitted := true,
        feedback_textarea := some "late thoughts" } []
      = ({ current_cluster_id := some "A", feedback_choice := some "nie_pasuje",
           feedback_comment_submitted := true,
           feedback_textarea := some "late thoughts" }, []) :=
  submit_guard_noop _ [] (Or.inr rfl)

/-- C10: every successful comment submission persists the stripped
version of the typed text (leading and trailing whitespace removed)
under the payload key "text", together with the constant vector [0.0];
the appended point is exactly the last element of the resulting store. -/
theorem persisted_text_is_trimmed (s : SessionState) (db : List PointStruct)
    (t : String)
    (hch : s.feedback_choice = some "nie_pasuje")
    (hsub : s.feedback_comment_submitted = false)
    (harea : s.feedback_textarea = some t)
    (htext : strip t ≠ "") :
    (submit_feedback s db).2.getLast?
      = some { id := qdrant_count db + 1,
               vector := [0],
               payload := [("text", strip t)] } := by
  simp [submit_feedback, add_note_to_db, hch, hsub, harea, htext]

theorem persisted_text_is_trimmed_witness :
    (submit_feedback
      { current_cluster_id := some "A", feedback_choice := some "nie_pasuje",
        feedback_comment_submitted := false,
        feedback_textarea := some "  needs detail  " } []).2.getLast?
      = some { id := qdrant_count [] + 1,
               vector := [0],
               payload := [("text", strip "  needs detail  ")] } :=
  persisted_text_is_trimmed _ [] "  needs detail  " rfl rfl rfl (by decide)

/-- Each event preserves the invariant that feedback_comment_submitted
is true only while feedback_choice is "nie_pasuje". -/
theorem step_preserves_submitted_inv (e : Event) (cfg : SessionState × List PointStruct)
    (ih : cfg.1.feedback_comment_submitted = true →
      cfg.1.feedback_choice = some "nie_pasuje") :
    (step e cfg).1.feedback_comment_submitted = true →
    (step e cfg).1.feedback_choice = some "nie_pasuje" := by
  obtain ⟨s, db⟩ := cfg
  cases e with
  | assign c =>
    simp only [step, reset_feedback_on_cluster_change]
    split_ifs <;> simp_all
  | selectMatches =>
    simp only [step, select_matches]
    split_ifs with h1 <;> simp_all
  | selectNotMatches =>
    simp only [step, select_not_matches]
    split_ifs with h1 <;> simp_all
  | typeComment t =>
    simp only [step, type_comment]
    split_ifs with h1 <;> simp_all
  | submit =>
    simp only [step, submit_feedback, widget_cleanup]
    split_ifs <;> simp_all
  | reset =>
    simp only [step, reset_click]
    split_ifs with h1 <;> simp_all

/-- C3: in every configuration reachable from the initial empty session
by the transition events, feedback_comment_submitted is true only if
feedback_choice equals "nie_pasuje" (the does-not-match choice). -/
theorem submitted_only_when_disagreed (cfg : SessionState × List PointStruct)
    (h : Reachable cfg)
    (hsub : cfg.1.feedback_comment_submitted = true) :
    cfg.1.feedback_choice = some "nie_pasuje" := by
  revert hsub
  induction h with
  | init => intro hsub; simp [initialState] at hsub
  | next e cfg h ih => exact step_preserves_submitted_inv e cfg ih

theorem submitted_only_when_disagreed_witness :
    (step .submit (step (.typeComment "too vague")
      (step .selectNotMatches (step (.assign "A") (initialState, []))))).1.feedback_choice
      = some "nie_pasuje" :=
  submitted_only_when_disagreed _
    (Reachable.next _ _ (Reachable.next _ _ (Reachable.next _ _
      (Reachable.next _ _ Reachable.init)))) (by decide)

/-- Each event preserves the invariant that the transient comment text
is present only while feedback_choice is "nie_pasuje" and
feedback_comment_submitted is false. -/
theorem step_preserves_textarea_inv (e : Event) (cfg : SessionState × List PointStruct)
    (ih : cfg.1.feedback_textarea ≠ none →
      cfg.1.feedback_choice = some "nie_pasuje" ∧
      cfg.1.feedback_comment_submitted = false) :
    (step e cfg).1.feedback_textarea ≠ none →
    (step e cfg).1.feedback_choice = some "nie_pasuje" ∧
    (step e cfg).1.feedback_comment_submitted = false := by
  obtain ⟨s, db⟩ := cfg
  cases e with
  | assign c =>
    simp only [step, reset_feedback_on_cluster_change]
    split_ifs <;> simp_all
  | selectMatches =>
    simp only [step, select_matches]
    split_ifs with h1 <;> simp_all
  | selectNotMatches =>
    simp only [step, select_not_matches]
    split_ifs with h1 <;> simp_all
  | typeComment t =>
    simp only [step, type_comment]
    split_ifs with h1 <;> simp_all
  | submit =>
    simp only [step, submit_feedback, widget_cleanup]
    split_ifs <;> simp_all
  | reset =>
    simp only [step, reset_click]
    split_ifs with h1 <;> simp_all

/-- C9: in every reachable configuration, the transient comment text is
present only while feedback_choice is "nie_pasuje" (the does-not-match
choice) and feedback_comment_submitted is false; in particular it is no
longer present after a successful submission sets
feedback_comment_submitted to true. -/
theorem textarea_only_while_composing (cfg : SessionState × List PointStruct)
    (h : Reachable cfg)
    (harea : cfg.1.feedback_textarea ≠ none) :
    cfg.1.feedback_choice = some "nie_pasuje" ∧
    cfg.1.feedback_comment_submitted = false := by
  revert harea
  induction h with
  | init => intro harea; simp [initialState] at harea
  | next e cfg h ih => exact step_preserves_textarea_inv e cfg ih

theorem textarea_only_while_composing_witness :
    (step (.typeComment "too vague")
      (step .selectNotMatches (step (.assign "A") (initialState, [])))).1.feedback_choice
      = some "nie_pasuje" ∧
    (step (.typeComment "too vague")
      (step .selectNotMatches
        (step (.assign "A") (initialState, [])))).1.feedback_comment_submitted = false :=
  textarea_only_while_composing _
    (Reachable.next _ _ (Reachable.next _ _ (Reachable.next _ _ Reachable.init)))
    (by decide)
